import Mathlib

/-!
Verification of the ONNX Runtime adapter layer (`modeling_ort.py`).

The development shallowly embeds `ORTModel` and its task subclasses:
Python object mutation becomes explicit state passing on `ORTModelState`,
the filesystem becomes an association list of paths to artifacts, and the
external collaborators (the graph optimizer, the quantizer, the GPU probe,
the model-type registry of `ORTConfigManager`) become an `Env` record of
functions and flags.  Calls into external tools are recorded in an event
trace so that "fails before the external tool is invoked" is expressible.
-/

/-- A serialized ONNX model artifact: its declared graph input names,
declared graph output names, and an abstract payload distinguishing the
weights of different artifacts. -/
structure Artifact where
  inputNames : List String
  outputNames : List String
  payload : Nat
deriving DecidableEq, Repr

/-- An `onnxruntime.InferenceSession`: the artifact it was loaded from and
the execution provider chosen at load time. -/
structure InferenceSession where
  artifact : Artifact
  provider : String
deriving DecidableEq, Repr

/-- `session.get_inputs()` : the declared input names of the loaded graph. -/
def InferenceSession.get_inputs (s : InferenceSession) : List String :=
  s.artifact.inputNames

/-- `session.get_outputs()` : the declared output names of the loaded graph. -/
def InferenceSession.get_outputs (s : InferenceSession) : List String :=
  s.artifact.outputNames

/-- The filesystem: files as an association list from full path to artifact
(later writes shadow earlier ones), plus the set of existing directories. -/
structure FS where
  files : List (String × Artifact)
  dirs : List String
deriving DecidableEq, Repr

/-- Read the artifact stored at a path, if any. -/
def FS.read (fs : FS) (p : String) : Option Artifact :=
  (fs.files.find? (fun kv => kv.1 == p)).map Prod.snd

/-- Write (create or overwrite) the file at a path. -/
def FS.write (fs : FS) (p : String) (a : Artifact) : FS :=
  ⟨(p, a) :: fs.files, fs.dirs⟩

/-- `os.path.isdir` / `Path` directory test. -/
def FS.isdir (fs : FS) (p : String) : Bool :=
  fs.dirs.contains p

/-- `Path.joinpath` / `os.path.join` with a single component. -/
def joinpath (d n : String) : String := d ++ "/" ++ n

/-- Split a character list at every slash (structural recursion, so that
path computations reduce in the kernel). -/
def splitSlashAux : List Char → List Char → List (List Char)
  | [], acc => [acc.reverse]
  | c :: rest, acc =>
    if c = '/' then acc.reverse :: splitSlashAux rest []
    else splitSlashAux rest (c :: acc)

/-- The slash-separated components of a path. -/
def pathComponents (p : String) : List (List Char) :=
  splitSlashAux p.data []

/-- Rejoin path components with slashes. -/
def joinSlash : List (List Char) → List Char
  | [] => []
  | [c] => c
  | c :: rest => c ++ '/' :: joinSlash rest

/-- `Path.name`: the final path component. -/
def pathName (p : String) : String :=
  ⟨(pathComponents p).getLastD p.data⟩

/-- `Path.parent` rendered back to a string. -/
def pathParent (p : String) : String :=
  ⟨joinSlash ((pathComponents p).dropLast)⟩

/-- `transformers.file_utils.default_cache_path` (external constant): the
transformers cache directory.  Its concrete value is irrelevant; only that
it is one fixed directory matters. -/
def default_cache_path : String := "/root/.cache/huggingface/transformers"

/-- Modelled from the spec: `ONNX_WEIGHTS_NAME` from `optimum.onnxruntime.utils`
(repository code not under src/); the default artifact file name, corroborated
by the `"model.onnx"` default in `ORTModel.__init__`. -/
def ONNX_WEIGHTS_NAME : String := "model.onnx"

/-- Modelled from the spec: `OPTIMIZED_ONNX_WEIGHTS_NAME` from
`optimum.onnxruntime.utils` (repository code not under src/); the fixed
well-known file name for the optimized variant, distinct from the other two. -/
def OPTIMIZED_ONNX_WEIGHTS_NAME : String := "optimized_model.onnx"

/-- Modelled from the spec: `QUANTIZED_ONNX_WEIGHTS_NAME` from
`optimum.onnxruntime.utils` (repository code not under src/); the fixed
well-known file name for the quantized variant, distinct from the other two. -/
def QUANTIZED_ONNX_WEIGHTS_NAME : String := "q8_model.onnx"

/-- `transformers.PretrainedConfig`: the source model configuration.  Only
`model_type` and the numeric attributes reached through `getattr` matter. -/
structure PretrainedConfig where
  model_type : String
  attrs : List (String × Nat)
deriving DecidableEq, Repr

/-- Python `getattr(config, name)` returning `none` for an `AttributeError`. -/
def PretrainedConfig.getattr (c : PretrainedConfig) (name : String) : Option Nat :=
  (c.attrs.find? (fun kv => kv.1 == name)).map Prod.snd

/-- Modelled from the spec: one entry of the static registry of
`ORTConfigManager` (repository code not under src/): the model-type-specific
attention-head and hidden-size field names and the optimizer-internal
model-type tag. -/
structure RegistryEntry where
  num_heads_name : String
  hidden_size_name : String
  ort_type : String
deriving DecidableEq, Repr

/-- Modelled from the spec: lookup in the static registry of
`ORTConfigManager`; `none` means the model type is unsupported and
`check_supported_model_or_raise` raises. -/
def lookupRegistry (reg : List (String × RegistryEntry)) (t : String) :
    Option RegistryEntry :=
  (reg.find? (fun kv => kv.1 == t)).map Prod.snd

/-- `OptimizationConfig` (call-site view): optimization level, backend
toggles, the `model_type` slot assigned by `optimize`, and the remaining
fusion toggles consumed by `FusionOptions.parse`. -/
structure OptimizationConfig where
  optimization_level : Nat
  optimize_for_gpu : Bool
  optimize_with_onnxruntime_only : Bool
  model_type : Option String
  fusion_toggles : List (String × Bool)
deriving DecidableEq, Repr

/-- `onnxruntime.transformers.fusion_options.FusionOptions` (external):
the fusion options derived from an `OptimizationConfig`. -/
structure FusionOptions where
  toggles : List (String × Bool)
deriving DecidableEq, Repr

/-- `FusionOptions.parse` (external): derives fusion options from the
configuration. -/
def FusionOptions.parse (c : OptimizationConfig) : FusionOptions :=
  ⟨c.fusion_toggles⟩

/-- A member of `quantization_config.operators_to_quantize`: either an
`ORTQuantizableOperator` enum member (whose `.value` is taken) or a raw
operator name string. -/
inductive QuantOperator where
  | enumOp (value : String)
  | rawOp (value : String)
deriving DecidableEq, Repr

/-- `operator.value if isinstance(operator, ORTQuantizableOperator) else operator`. -/
def QuantOperator.toName : QuantOperator → String
  | .enumOp v => v
  | .rawOp v => v

/-- `QuantizationConfig` (call-site view): every field read by
`ORTModel.quantize`. -/
structure QuantizationConfig where
  is_static : Bool
  per_channel : Bool
  mode : String
  weights_dtype : String
  activations_dtype : String
  reduce_range : Bool
  nodes_to_quantize : List String
  nodes_to_exclude : List String
  operators_to_quantize : List QuantOperator
  weights_symmetric : Bool
  activations_symmetric : Bool
deriving DecidableEq, Repr

/-- The argument record handed to the external `optimize_model`. -/
structure OptimizerArgs where
  input : String
  model_type : String
  num_heads : Nat
  hidden_size : Nat
  opt_level : Nat
  use_gpu : Bool
  optimization_options : FusionOptions
  only_onnxruntime : Bool
deriving DecidableEq, Repr

/-- The argument record handed to the external `ONNXQuantizer`
(`tensors_range` is always `None` and is omitted). -/
structure QuantizerArgs where
  model : Artifact
  static : Bool
  per_channel : Bool
  mode : String
  weight_qType : String
  input_qType : String
  reduce_range : Bool
  nodes_to_quantize : List String
  nodes_to_exclude : List String
  op_types_to_quantize : List String
  weightSymmetric : Bool
  activationSymmetric : Bool
  enableSubgraph : Bool
  forceSymmetric : Bool
deriving DecidableEq, Repr

/-- Observable external effects of an adapter operation, in order. -/
inductive Event where
  | optimizerInvoked (args : OptimizerArgs)
  | quantizerInvoked (args : QuantizerArgs)
  | fileWritten (path : String)
  | sessionLoaded (path : String)
deriving DecidableEq, Repr

/-- Python exceptions surfaced by the adapter. -/
inductive ORTError where
  | attributeError (msg : String)
  | unsupportedModelType (t : String)
  | valueError (msg : String)
  | fileNotFound (p : String)
  | loadFailure (p : String)
  | keyError (k : String)
  | indexError
deriving DecidableEq, Repr

/-- The value produced by a call: a raised exception or a returned value. -/
inductive RetVal (α : Type) where
  | exn (e : ORTError)
  | ok (a : α)
deriving DecidableEq, Repr

/-- The adapter state: Python object identity (`objId`), the loaded session,
the source configuration, and the current-artifact bookkeeping
(`model_save_dir`, `latest_model_name`). -/
structure ORTModelState where
  objId : Nat
  model : InferenceSession
  config : PretrainedConfig
  model_save_dir : Option String
  latest_model_name : String
deriving DecidableEq, Repr

/-- `ORTModel.__init__`: `model_save_dir` defaults to `None` and
`latest_model_name` to `"model.onnx"` when absent from the kwargs. -/
def ORTModel.init (objId : Nat) (model : InferenceSession)
    (config : PretrainedConfig) (model_save_dir : Option String)
    (latest_model_name : Option String) : ORTModelState :=
  ⟨objId, model, config, model_save_dir, latest_model_name.getD "model.onnx"⟩

/-- `self.model_save_dir.joinpath(self.latest_model_name)`: the path of the
artifact the bookkeeping currently points at. -/
def currentArtifactPath (s : ORTModelState) : Option String :=
  s.model_save_dir.map (fun d => joinpath d s.latest_model_name)

/-- The environment of external collaborators: the GPU probe
`_is_gpu_available` and the `ORTConfigManager` registry (modelled from the
spec: both live in repository modules not under src/), and the external
optimizer, float16 converter, quantizer, session-run and hub-download
functions (external libraries). -/
structure Env where
  gpu_available : Bool
  registry : List (String × RegistryEntry)
  optimize_model : OptimizerArgs → Artifact → Artifact
  to_fp16 : Artifact → Artifact
  quantize_model : QuantizerArgs → Artifact
  run : Artifact → List (String × Nat) → List Nat
  hub_download : String → String → Option (String × Artifact)

/-- `ORTModel.load_model`: open an inference session on the artifact at
`path`, choosing `CUDAExecutionProvider` when a GPU is reported and
`CPUExecutionProvider` otherwise, unless a provider is given. -/
def ORTModel.load_model (env : Env) (fs : FS) (path : String)
    (provider : Option String) : Option InferenceSession :=
  let prov := provider.getD
    (if env.gpu_available then "CUDAExecutionProvider" else "CPUExecutionProvider")
  (fs.read path).map (fun a => ⟨a, prov⟩)

/-- Outcome of `ORTModel.optimize`: the returned value, the state of `self`
after the call, the filesystem, the caller's configuration object after the
call (Python passes it by reference), and the external-effect trace. -/
structure OptimizeOutcome where
  ret : RetVal ORTModelState
  state : ORTModelState
  fs : FS
  cfg : OptimizationConfig
  events : List Event
deriving DecidableEq, Repr

/-- `ORTModel.optimize`: embeds lines 91-144 of `modeling_ort.py`.  The
`output_path` parameter is rebound to the fixed cache path before use. -/
def ORTModel.optimize (env : Env) (s : ORTModelState)
    (optimization_config : OptimizationConfig) (output_path : String)
    (fs : FS) : OptimizeOutcome :=
  match s.model_save_dir with
  | none =>
      ⟨.exn (.attributeError "NoneType object has no attribute joinpath"),
        s, fs, optimization_config, []⟩
  | some dir =>
    let inputPath := joinpath dir s.latest_model_name
    let outPath := joinpath default_cache_path OPTIMIZED_ONNX_WEIGHTS_NAME
    match lookupRegistry env.registry s.config.model_type with
    | none =>
        ⟨.exn (.unsupportedModelType s.config.model_type),
          s, fs, optimization_config, []⟩
    | some entry =>
      match s.config.getattr entry.num_heads_name with
      | none =>
          ⟨.exn (.attributeError entry.num_heads_name),
            s, fs, optimization_config, []⟩
      | some num_heads =>
        match s.config.getattr entry.hidden_size_name with
        | none =>
            ⟨.exn (.attributeError entry.hidden_size_name),
              s, fs, optimization_config, []⟩
        | some hidden_size =>
          let cfg := { optimization_config with model_type := some entry.ort_type }
          let args : OptimizerArgs :=
            ⟨inputPath, entry.ort_type, num_heads, hidden_size,
              cfg.optimization_level, cfg.optimize_for_gpu,
              FusionOptions.parse cfg, cfg.optimize_with_onnxruntime_only⟩
          match fs.read inputPath with
          | none =>
              ⟨.exn (.fileNotFound inputPath), s, fs, cfg,
                [.optimizerInvoked args]⟩
          | some inputArt =>
            let optimized := env.optimize_model args inputArt
            let optimized :=
              if env.gpu_available then env.to_fp16 optimized else optimized
            let fs' := fs.write outPath optimized
            match ORTModel.load_model env fs' outPath none with
            | none =>
                ⟨.exn (.loadFailure outPath), s, fs', cfg,
                  [.optimizerInvoked args, .fileWritten outPath]⟩
            | some sess =>
              let s' : ORTModelState :=
                { s with model := sess,
                         model_save_dir := some (pathParent outPath),
                         latest_model_name := pathName outPath }
              ⟨.ok s', s', fs', cfg,
                [.optimizerInvoked args, .fileWritten outPath,
                  .sessionLoaded outPath]⟩

/-- Outcome of `ORTModel.quantize`: the returned value, the state of `self`
after the call, the filesystem, and the external-effect trace (the
quantization configuration is never written to). -/
structure QuantizeOutcome where
  ret : RetVal ORTModelState
  state : ORTModelState
  fs : FS
  events : List Event
deriving DecidableEq, Repr

/-- `ORTModel.quantize`: embeds lines 146-202 of `modeling_ort.py`.  The
`output_path` parameter is rebound to the fixed cache path before use. -/
def ORTModel.quantize (env : Env) (s : ORTModelState)
    (quantization_config : QuantizationConfig) (output_path : String)
    (fs : FS) : QuantizeOutcome :=
  if quantization_config.is_static then
    ⟨.exn (.valueError "Static Quantization is not yet supported, please us ORTQuantizer."),
      s, fs, []⟩
  else if env.gpu_available then
    ⟨.exn (.valueError "GPU is not supported for quantization"), s, fs, []⟩
  else
    match s.model_save_dir with
    | none =>
        ⟨.exn (.attributeError "NoneType object has no attribute joinpath"),
          s, fs, []⟩
    | some dir =>
      let inputPath := joinpath dir s.latest_model_name
      let outPath := joinpath default_cache_path QUANTIZED_ONNX_WEIGHTS_NAME
      match fs.read inputPath with
      | none => ⟨.exn (.fileNotFound inputPath), s, fs, []⟩
      | some onnx_model =>
        let args : QuantizerArgs :=
          ⟨onnx_model, quantization_config.is_static,
            quantization_config.per_channel, quantization_config.mode,
            quantization_config.weights_dtype,
            quantization_config.activations_dtype,
            quantization_config.reduce_range,
            quantization_config.nodes_to_quantize,
            quantization_config.nodes_to_exclude,
            quantization_config.operators_to_quantize.map QuantOperator.toName,
            quantization_config.weights_symmetric,
            quantization_config.activations_symmetric,
            false,
            quantization_config.activations_symmetric
              && quantization_config.weights_symmetric⟩
        let quantized := env.quantize_model args
        let fs' := fs.write outPath quantized
        match ORTModel.load_model env fs' outPath none with
        | none =>
            ⟨.exn (.loadFailure outPath), s, fs',
              [.quantizerInvoked args, .fileWritten outPath]⟩
        | some sess =>
          let s' : ORTModelState :=
            { s with model := sess,
                     model_save_dir := some (pathParent outPath),
                     latest_model_name := pathName outPath }
          ⟨.ok s', s', fs',
            [.quantizerInvoked args, .fileWritten outPath,
              .sessionLoaded outPath]⟩

/-- A framework (torch) tensor; only its identity matters for marshalling. -/
structure Tensor where
  id : Nat
deriving DecidableEq, Repr

/-- `t.cpu().detach().numpy()`: conversion to the engine's host array,
preserving the underlying data. -/
def Tensor.numpy (t : Tensor) : Nat := t.id

/-- `torch.from_numpy`: conversion back to a framework tensor. -/
def torchFromNumpy (a : Nat) : Tensor := ⟨a⟩

/-- `ORTModel._save_pretrained`: copy the current artifact
(`model_save_dir/latest_model_name`) into `save_directory` under
`file_name` (default `"model.onnx"`); returns the updated filesystem. -/
def ORTModel.save_pretrained (s : ORTModelState) (fs : FS)
    (save_directory : String) (file_name : Option String) : RetVal FS :=
  let model_file_name := file_name.getD ONNX_WEIGHTS_NAME
  match s.model_save_dir with
  | none => .exn (.attributeError "NoneType object has no attribute joinpath")
  | some dir =>
    let src_path := joinpath dir s.latest_model_name
    let dst_path := joinpath save_directory model_file_name
    match fs.read src_path with
    | none => .exn (.fileNotFound src_path)
    | some a => .ok (fs.write dst_path a)

/-- `ORTModel._from_pretrained`: load from a local directory (reading
`model_id/file_name` directly, leaving `latest_model_name` at its
default) or from the hub (downloading into the cache and recording the
cache location in the bookkeeping).  `objId` is the identity of the fresh
instance; the result pairs it with the possibly-extended filesystem. -/
def ORTModel.from_pretrained (env : Env) (fs : FS) (model_id : String)
    (file_name : Option String) (config_dict : PretrainedConfig)
    (objId : Nat) : RetVal (ORTModelState × FS) :=
  let model_file_name := file_name.getD ONNX_WEIGHTS_NAME
  if fs.isdir model_id then
    match ORTModel.load_model env fs (joinpath model_id model_file_name) none with
    | none => .exn (.loadFailure (joinpath model_id model_file_name))
    | some m =>
        .ok (ORTModel.init objId m config_dict (some model_id) none, fs)
  else
    match env.hub_download model_id model_file_name with
    | none => .exn (.fileNotFound model_id)
    | some (cache_path, art) =>
      let fs' := fs.write cache_path art
      match ORTModel.load_model env fs' cache_path none with
      | none => .exn (.loadFailure cache_path)
      | some m =>
          .ok (ORTModel.init objId m config_dict
                (some (pathParent cache_path)) (some (pathName cache_path)), fs')

/-- The `{output_key.name: idx for idx, output_key in enumerate(...)}` dict
comprehension: an association list from name to position (later pairs
shadow earlier ones, as in a Python dict). -/
def pyEnumDict (names : List String) : List (String × Nat) :=
  names.enum.map (fun p => (p.2, p.1))

/-- Python dict lookup (`d[k]`): the binding of the last occurrence of the
key wins; `none` is a `KeyError`. -/
def dictGet (d : List (String × Nat)) (k : String) : Option Nat :=
  (d.reverse.find? (fun kv => kv.1 == k)).map Prod.snd

/-- State of a task adapter subclass: the base `ORTModel` state plus the
name-to-position dict over the session's declared outputs built in
`__init__` (and, for sequence classification, over the inputs too). -/
structure TaskAdapterState where
  base : ORTModelState
  model_outputs : List (String × Nat)
  model_inputs : List (String × Nat)
deriving DecidableEq, Repr

/-- The shared `__init__` body of the task adapter subclasses: builds the
name-to-position dicts from the loaded session; it performs no check on
the declared names and always succeeds. -/
def TaskAdapter.init (base : ORTModelState) : TaskAdapterState :=
  ⟨base, pyEnumDict base.model.get_outputs, pyEnumDict base.model.get_inputs⟩

/-- The `onnx_inputs` map built by the forward methods that accept
`token_type_ids`: `input_ids` and `attention_mask` are always converted,
`token_type_ids` is added only when it is not `None`. -/
def forwardInputsMap (input_ids attention_mask : Tensor)
    (token_type_ids : Option Tensor) : List (String × Nat) :=
  let onnx_inputs :=
    [("input_ids", input_ids.numpy), ("attention_mask", attention_mask.numpy)]
  match token_type_ids with
  | some tt => onnx_inputs ++ [("token_type_ids", tt.numpy)]
  | none => onnx_inputs

/-- The shared forward body of the BERT-like task adapters: converts the
inputs (raising on a `None` tensor), runs the session, and selects the
output named `wanted` through the dict built at construction. -/
def TaskAdapter.forwardNamed (env : Env) (st : TaskAdapterState)
    (input_ids attention_mask token_type_ids : Option Tensor)
    (wanted : String) : RetVal Tensor :=
  match input_ids with
  | none => .exn (.attributeError "cpu")
  | some ii =>
    match attention_mask with
    | none => .exn (.attributeError "cpu")
    | some am =>
      let onnx_inputs := forwardInputsMap ii am token_type_ids
      let outputs := env.run st.base.model.artifact onnx_inputs
      match dictGet st.model_outputs wanted with
      | none => .exn (.keyError wanted)
      | some idx =>
        match outputs.get? idx with
        | none => .exn .indexError
        | some arr => .ok (torchFromNumpy arr)

/-- `ORTModelForFeatureExtraction.forward`: wraps the output named
`"last_hidden_state"` in a `BaseModelOutput`. -/
def ORTModelForFeatureExtraction.forward (env : Env) (st : TaskAdapterState)
    (input_ids attention_mask token_type_ids : Option Tensor) : RetVal Tensor :=
  TaskAdapter.forwardNamed env st input_ids attention_mask token_type_ids
    "last_hidden_state"

/-- `ORTModelForSequenceClassification.forward`: wraps the output named
`"logits"` in a `SequenceClassifierOutput`. -/
def ORTModelForSequenceClassification.forward (env : Env)
    (st : TaskAdapterState)
    (input_ids attention_mask token_type_ids : Option Tensor) : RetVal Tensor :=
  TaskAdapter.forwardNamed env st input_ids attention_mask token_type_ids
    "logits"

/-- `ORTModelForCausalLM.forward`: no `token_type_ids` parameter; converts
`input_ids` and `attention_mask` (raising on `None`), runs the session and
wraps the output named `"logits"`. -/
def ORTModelForCausalLM.forward (env : Env) (st : TaskAdapterState)
    (input_ids attention_mask : Option Tensor) : RetVal Tensor :=
  match input_ids with
  | none => .exn (.attributeError "cpu")
  | some ii =>
    match attention_mask with
    | none => .exn (.attributeError "cpu")
    | some am =>
      let onnx_inputs :=
        [("input_ids", ii.numpy), ("attention_mask", am.numpy)]
      let outputs := env.run st.base.model.artifact onnx_inputs
      match dictGet st.model_outputs "logits" with
      | none => .exn (.keyError "logits")
      | some idx =>
        match outputs.get? idx with
        | none => .exn .indexError
        | some arr => .ok (torchFromNumpy arr)

/-- The fixed output path of `optimize`. -/
def optOutPath : String := joinpath default_cache_path OPTIMIZED_ONNX_WEIGHTS_NAME

/-- The fixed output path of `quantize`. -/
def qOutPath : String := joinpath default_cache_path QUANTIZED_ONNX_WEIGHTS_NAME

/-- A concrete artifact with the classification output `"logits"`. -/
def artifactA : Artifact := ⟨["input_ids", "attention_mask"], ["logits"], 1⟩

/-- A concrete artifact with the feature-extraction output
`"last_hidden_state"` and no `"logits"`. -/
def artifactB : Artifact :=
  ⟨["input_ids", "attention_mask", "token_type_ids"], ["last_hidden_state"], 2⟩

/-- A concrete registry entry for the `bert` model type. -/
def bertEntry : RegistryEntry := ⟨"num_attention_heads", "hidden_size", "bert"⟩

/-- A concrete CPU environment whose external tools bump the artifact
payload, so their effect on files is observable. -/
def env0 : Env :=
  ⟨false, [("bert", bertEntry)],
    fun _ a => ⟨a.inputNames, a.outputNames, a.payload + 10⟩,
    fun a => ⟨a.inputNames, a.outputNames, a.payload + 100⟩,
    fun args => ⟨args.model.inputNames, args.model.outputNames,
      args.model.payload + 20⟩,
    fun _ _ => [5, 6],
    fun _ _ => none⟩

/-- `env0` with accelerated hardware reported present. -/
def envG : Env := { env0 with gpu_available := true }

/-- A concrete supported source configuration. -/
def cfg0 : PretrainedConfig :=
  ⟨"bert", [("num_attention_heads", 12), ("hidden_size", 768)]⟩

/-- A concrete source configuration whose model type is not registered. -/
def cfgUnknown : PretrainedConfig := ⟨"mamba", [("hidden_size", 64)]⟩

/-- A concrete optimization configuration with `model_type` unset. -/
def optCfg0 : OptimizationConfig := ⟨99, false, false, none, [("disable_gelu", false)]⟩

/-- A concrete dynamic (non-static) quantization configuration. -/
def qCfg0 : QuantizationConfig :=
  ⟨false, true, "IntegerOps", "QInt8", "QUInt8", false, ["n1"], ["n2"],
    [.enumOp "MatMul", .rawOp "Add"], true, false⟩

/-- `qCfg0` with static quantization requested. -/
def qStatic : QuantizationConfig := { qCfg0 with is_static := true }

/-- A concrete loaded adapter over `artifactA`. -/
def s0 : ORTModelState :=
  ⟨0, ⟨artifactA, "CPUExecutionProvider"⟩, cfg0, some "/models/bert", "model.onnx"⟩

/-- The filesystem backing `s0`. -/
def fs0 : FS := ⟨[("/models/bert/model.onnx", artifactA)], ["/models/bert"]⟩

/-- `s0` with an unregistered model type. -/
def sUnknown : ORTModelState := { s0 with config := cfgUnknown }

/-- An adapter whose bookkeeping already points at the fixed optimize
output path (the state reached right after a first `optimize`). -/
def sColl : ORTModelState :=
  ⟨0, ⟨artifactA, "CPUExecutionProvider"⟩, cfg0, some default_cache_path,
    OPTIMIZED_ONNX_WEIGHTS_NAME⟩

/-- The filesystem backing `sColl`: the current artifact sits at the fixed
optimize output path. -/
def fsColl : FS := ⟨[(optOutPath, artifactA)], []⟩

/-- A directory holding `artifactB` under the default name and `artifactA`
under the name `other.onnx`. -/
def fsSkew : FS :=
  ⟨[("/repo/model.onnx", artifactB), ("/repo/other.onnx", artifactA)],
    ["/repo", "/dst"]⟩

/-- The adapter produced by loading `/repo` with file name `other.onnx`. -/
def c6State : ORTModelState :=
  ⟨1, ⟨artifactA, "CPUExecutionProvider"⟩, cfg0, some "/repo", "model.onnx"⟩

/-- `fsSkew` after saving `c6State` to `/dst` under `copy.onnx`. -/
def fsSkew2 : FS := fsSkew.write "/dst/copy.onnx" artifactB

/-- The adapter produced by re-loading `/dst` with file name `copy.onnx`. -/
def c6State2 : ORTModelState :=
  ⟨2, ⟨artifactB, "CPUExecutionProvider"⟩, cfg0, some "/dst", "model.onnx"⟩

/-- A concrete adapter over `artifactB`, whose outputs lack `"logits"`. -/
def sB : ORTModelState := { s0 with model := ⟨artifactB, "CPUExecutionProvider"⟩ }

/-- The adapter state produced by a concrete successful `optimize`. -/
def c1OptState : ORTModelState := (ORTModel.optimize env0 s0 optCfg0 "x" fs0).state

/-- The adapter state produced by a concrete successful `quantize`. -/
def c1QState : ORTModelState := (ORTModel.quantize env0 s0 qCfg0 "y" fs0).state

theorem FS.read_write_self (fs : FS) (p : String) (a : Artifact) :
    (fs.write p a).read p = some a := by
  simp [FS.read, FS.write, List.find?]

theorem FS.read_write_ne (fs : FS) (p q : String) (a : Artifact) (h : q ≠ p) :
    (fs.write p a).read q = fs.read q := by
  have hb : (p == q) = false := by
    rw [beq_eq_false_iff_ne]
    exact fun hpq => h hpq.symm
  simp [FS.read, FS.write, List.find?, hb]

/-- C2.  For every quantization configuration with `is_static` set, and for
every call made while a GPU is reported present, `quantize` raises a
`ValueError` before the external quantizer is constructed or invoked
(empty effect trace), and the adapter state and the filesystem are
unchanged. -/
theorem quantize_fails_fast_static_or_gpu (env : Env) (s : ORTModelState)
    (qc : QuantizationConfig) (p : String) (fs : FS)
    (h : qc.is_static = true ∨ env.gpu_available = true) :
    ORTModel.quantize env s qc p fs =
      ⟨RetVal.exn (ORTError.valueError
          (if qc.is_static then
            "Static Quantization is not yet supported, please us ORTQuantizer."
          else "GPU is not supported for quantization")),
        s, fs, []⟩ := by
  rcases h with h | h
  · simp [ORTModel.quantize, h]
  · cases hs : qc.is_static <;> simp [ORTModel.quantize, h, hs]

theorem quantize_fails_fast_static_or_gpu_witness :
    (qStatic.is_static = true ∨ env0.gpu_available = true) ∧
      ORTModel.quantize env0 s0 qStatic "anywhere" fs0 =
        ⟨RetVal.exn (ORTError.valueError
            (if qStatic.is_static then
              "Static Quantization is not yet supported, please us ORTQuantizer."
            else "GPU is not supported for quantization")),
          s0, fs0, []⟩ :=
  ⟨Or.inl (by decide),
    quantize_fails_fast_static_or_gpu env0 s0 qStatic "anywhere" fs0
      (Or.inl (by decide))⟩

/-- C3.  For every adapter whose configuration's model type is absent from
the static registry (and whose save directory is set, as it is for any
loaded adapter), `optimize` raises the unsupported-model-type error with
an empty effect trace — before the external optimizer is invoked — and
the adapter state, the filesystem and the caller's configuration are
unchanged. -/
theorem optimize_unsupported_model_type (env : Env) (s : ORTModelState)
    (ocfg : OptimizationConfig) (p dir : String) (fs : FS)
    (hdir : s.model_save_dir = some dir)
    (hreg : lookupRegistry env.registry s.config.model_type = none) :
    ORTModel.optimize env s ocfg p fs =
      ⟨RetVal.exn (ORTError.unsupportedModelType s.config.model_type),
        s, fs, ocfg, []⟩ := by
  simp [ORTModel.optimize, hdir, hreg]

theorem optimize_unsupported_model_type_witness :
    (sUnknown.model_save_dir = some "/models/bert" ∧
      lookupRegistry env0.registry sUnknown.config.model_type = none) ∧
    ORTModel.optimize env0 sUnknown optCfg0 "anywhere" fs0 =
      ⟨RetVal.exn (ORTError.unsupportedModelType sUnknown.config.model_type),
        sUnknown, fs0, optCfg0, []⟩ :=
  ⟨⟨by decide, by decide⟩,
    optimize_unsupported_model_type env0 sUnknown optCfg0 "anywhere"
      "/models/bert" fs0 (by decide) (by decide)⟩

theorem pyEnumDict_fst (names : List String) :
    (pyEnumDict names).map Prod.fst = names := by
  unfold pyEnumDict
  rw [List.map_map]
  exact List.enumFrom_map_snd 0 names

theorem dictGet_eq_none (d : List (String × Nat)) (k : String)
    (h : k ∉ d.map Prod.fst) : dictGet d k = none := by
  unfold dictGet
  rw [Option.map_eq_none']
  rw [List.find?_eq_none]
  intro x hx hbeq
  exact h (List.mem_map.mpr ⟨x, List.mem_reverse.mp hx, by simpa using hbeq⟩)

theorem dictGet_mem (d : List (String × Nat)) (k : String)
    (h : k ∈ d.map Prod.fst) : ∃ i, dictGet d k = some i := by
  unfold dictGet
  rcases List.mem_map.mp h with ⟨x, hx, hk⟩
  have hsome : (d.reverse.find? (fun kv => kv.1 == k)).isSome := by
    rw [List.find?_isSome]
    exact ⟨x, List.mem_reverse.mpr hx, by simp [hk]⟩
  rcases Option.isSome_iff_exists.mp hsome with ⟨y, hy⟩
  exact ⟨y.2, by rw [hy]; rfl⟩

theorem optOutPath_parent_name :
    joinpath (pathParent optOutPath) (pathName optOutPath) = optOutPath := by decide

theorem qOutPath_parent_name :
    joinpath (pathParent qOutPath) (pathName qOutPath) = qOutPath := by decide

/-- Inversion of a successful `optimize`: the exact shape of the outcome. -/
theorem optimize_ok_elim (env : Env) (s : ORTModelState)
    (ocfg : OptimizationConfig) (p : String) (fs : FS) (s₁ : ORTModelState)
    (h : (ORTModel.optimize env s ocfg p fs).ret = RetVal.ok s₁) :
    ∃ args art,
      ORTModel.optimize env s ocfg p fs =
        ⟨RetVal.ok s₁, s₁, fs.write optOutPath art,
          { ocfg with model_type := some args.model_type },
          [Event.optimizerInvoked args, Event.fileWritten optOutPath,
            Event.sessionLoaded optOutPath]⟩ ∧
      s₁.model.artifact = art ∧
      s₁.objId = s.objId ∧
      s₁.model_save_dir = some (pathParent optOutPath) ∧
      s₁.latest_model_name = pathName optOutPath := by
  rcases hd : s.model_save_dir with _ | dir
  · simp [ORTModel.optimize, hd] at h
  · rcases hr : lookupRegistry env.registry s.config.model_type with _ | entry
    · simp [ORTModel.optimize, hd, hr] at h
    · rcases hn : s.config.getattr entry.num_heads_name with _ | nh
      · simp [ORTModel.optimize, hd, hr, hn] at h
      · rcases hh : s.config.getattr entry.hidden_size_name with _ | hsz
        · simp [ORTModel.optimize, hd, hr, hn, hh] at h
        · rcases ha : fs.read (joinpath dir s.latest_model_name) with _ | art
          · simp [ORTModel.optimize, hd, hr, hn, hh, ha] at h
          · simp only [ORTModel.optimize, hd, hr, hn, hh, ha,
              ORTModel.load_model, FS.read_write_self, Option.map_some',
              Option.getD_none, optOutPath] at h ⊢
            rw [RetVal.ok.injEq] at h
            subst h
            refine ⟨⟨joinpath dir s.latest_model_name, entry.ort_type, nh, hsz,
              ocfg.optimization_level, ocfg.optimize_for_gpu,
              FusionOptions.parse { ocfg with model_type := some entry.ort_type },
              ocfg.optimize_with_onnxruntime_only⟩, _, rfl, ?_, rfl, rfl, rfl⟩
            rfl

/-- Inversion of a successful `quantize`: the exact shape of the outcome. -/
theorem quantize_ok_elim (env : Env) (s : ORTModelState)
    (qc : QuantizationConfig) (p : String) (fs : FS) (s₂ : ORTModelState)
    (h : (ORTModel.quantize env s qc p fs).ret = RetVal.ok s₂) :
    ∃ args art,
      ORTModel.quantize env s qc p fs =
        ⟨RetVal.ok s₂, s₂, fs.write qOutPath art,
          [Event.quantizerInvoked args, Event.fileWritten qOutPath,
            Event.sessionLoaded qOutPath]⟩ ∧
      s₂.model.artifact = art ∧
      s₂.objId = s.objId ∧
      s₂.model_save_dir = some (pathParent qOutPath) ∧
      s₂.latest_model_name = pathName qOutPath := by
  cases hst : qc.is_static
  · cases hg : env.gpu_available
    · rcases hd : s.model_save_dir with _ | dir
      · simp [ORTModel.quantize, hst, hg, hd] at h
      · rcases ha : fs.read (joinpath dir s.latest_model_name) with _ | art
        · simp [ORTModel.quantize, hst, hg, hd, ha] at h
        · simp only [ORTModel.quantize, hst, hg, hd, ha,
            ORTModel.load_model, FS.read_write_self, Option.map_some',
            Option.getD_none, qOutPath, Bool.false_eq_true, if_false] at h ⊢
          rw [RetVal.ok.injEq] at h
          subst h
          refine ⟨⟨art, false, qc.per_channel, qc.mode, qc.weights_dtype,
            qc.activations_dtype, qc.reduce_range, qc.nodes_to_quantize,
            qc.nodes_to_exclude, qc.operators_to_quantize.map QuantOperator.toName,
            qc.weights_symmetric, qc.activations_symmetric, false,
            qc.activations_symmetric && qc.weights_symmetric⟩, _, rfl, ?_,
            rfl, rfl, rfl⟩
          rfl
    · simp [ORTModel.quantize, hst, hg] at h
  · simp [ORTModel.quantize, hst] at h

/-- C1 (amended).  After a successful `optimize` or `quantize`, the call
returns the same adapter instance (the updated state of `self`, object
identity preserved), the bookkeeping (`model_save_dir`, `latest_model_name`)
points at the newly persisted artifact at the operation's fixed output
path, the new session handle holds exactly that artifact, and — provided
the previously current artifact did not itself sit at that fixed output
path — the previously current artifact file is neither deleted nor
modified on disk. -/
theorem optimize_quantize_supersession (env : Env) (s : ORTModelState)
    (ocfg : OptimizationConfig) (qc : QuantizationConfig) (p q oldP : String)
    (fs : FS) (s₁ s₂ : ORTModelState)
    (hold : currentArtifactPath s = some oldP) :
    ((ORTModel.optimize env s ocfg p fs).ret = RetVal.ok s₁ →
      (ORTModel.optimize env s ocfg p fs).state = s₁ ∧
      s₁.objId = s.objId ∧
      currentArtifactPath s₁ = some optOutPath ∧
      (ORTModel.optimize env s ocfg p fs).fs.read optOutPath =
        some s₁.model.artifact ∧
      (oldP ≠ optOutPath →
        (ORTModel.optimize env s ocfg p fs).fs.read oldP = fs.read oldP)) ∧
    ((ORTModel.quantize env s qc q fs).ret = RetVal.ok s₂ →
      (ORTModel.quantize env s qc q fs).state = s₂ ∧
      s₂.objId = s.objId ∧
      currentArtifactPath s₂ = some qOutPath ∧
      (ORTModel.quantize env s qc q fs).fs.read qOutPath =
        some s₂.model.artifact ∧
      (oldP ≠ qOutPath →
        (ORTModel.quantize env s qc q fs).fs.read oldP = fs.read oldP)) := by
  constructor
  · intro h
    rcases optimize_ok_elim env s ocfg p fs s₁ h with
      ⟨args, art, hout, hart, hid, hdir, hname⟩
    rw [hout]
    refine ⟨rfl, hid, ?_, ?_, ?_⟩
    · simp [currentArtifactPath, hdir, hname, optOutPath_parent_name]
    · simp only [FS.read_write_self, hart]
    · intro hneO
      exact FS.read_write_ne fs optOutPath oldP art hneO
  · intro h
    rcases quantize_ok_elim env s qc q fs s₂ h with
      ⟨args, art, hout, hart, hid, hdir, hname⟩
    rw [hout]
    refine ⟨rfl, hid, ?_, ?_, ?_⟩
    · simp [currentArtifactPath, hdir, hname, qOutPath_parent_name]
    · simp only [FS.read_write_self, hart]
    · intro hneQ
      exact FS.read_write_ne fs qOutPath oldP art hneQ

theorem optimize_quantize_supersession_witness :
    ((ORTModel.optimize env0 s0 optCfg0 "x" fs0).fs.read
        "/models/bert/model.onnx" = fs0.read "/models/bert/model.onnx") ∧
    ((ORTModel.quantize env0 s0 qCfg0 "y" fs0).fs.read
        "/models/bert/model.onnx" = fs0.read "/models/bert/model.onnx") :=
  ⟨((optimize_quantize_supersession env0 s0 optCfg0 qCfg0 "x" "y"
      "/models/bert/model.onnx" fs0 c1OptState c1QState
      (by decide)).1 (by rfl)).2.2.2.2 (by decide),
   ((optimize_quantize_supersession env0 s0 optCfg0 qCfg0 "x" "y"
      "/models/bert/model.onnx" fs0 c1OptState c1QState
      (by decide)).2 (by rfl)).2.2.2.2 (by decide)⟩

/-- C1 counterexample: starting from the state reached right after a first
`optimize` (bookkeeping at the fixed optimize output path), a second
successful `optimize` overwrites the previously current artifact file:
the claim's "previously current artifact file is neither deleted nor
modified on disk" fails. -/
theorem optimize_quantize_supersession_counterexample :
    (ORTModel.optimize env0 sColl optCfg0 "x" fsColl).ret =
        RetVal.ok (ORTModel.optimize env0 sColl optCfg0 "x" fsColl).state ∧
    currentArtifactPath sColl = some optOutPath ∧
    fsColl.read optOutPath = some artifactA ∧
    (ORTModel.optimize env0 sColl optCfg0 "x" fsColl).fs.read optOutPath ≠
      some artifactA := by decide

/-- C4.  The caller-supplied `output_path` has no effect on `optimize` or
`quantize`, and every file either operation writes is at its fixed path
under `default_cache_path` (so two optimize calls with different
configurations write to the same file). -/
theorem fixed_output_paths (env : Env) (s : ORTModelState)
    (ocfg : OptimizationConfig) (qc : QuantizationConfig) (p₁ p₂ : String)
    (fs : FS) :
    ORTModel.optimize env s ocfg p₁ fs = ORTModel.optimize env s ocfg p₂ fs ∧
    ORTModel.quantize env s qc p₁ fs = ORTModel.quantize env s qc p₂ fs ∧
    (∀ w, Event.fileWritten w ∈ (ORTModel.optimize env s ocfg p₁ fs).events →
      w = optOutPath) ∧
    (∀ w, Event.fileWritten w ∈ (ORTModel.quantize env s qc p₁ fs).events →
      w = qOutPath) := by
  refine ⟨rfl, rfl, ?_, ?_⟩
  · intro w hw
    rcases hd : s.model_save_dir with _ | dir
    · simp [ORTModel.optimize, hd] at hw
    · rcases hr : lookupRegistry env.registry s.config.model_type with _ | entry
      · simp [ORTModel.optimize, hd, hr] at hw
      · rcases hn : s.config.getattr entry.num_heads_name with _ | nh
        · simp [ORTModel.optimize, hd, hr, hn] at hw
        · rcases hh : s.config.getattr entry.hidden_size_name with _ | hsz
          · simp [ORTModel.optimize, hd, hr, hn, hh] at hw
          · rcases ha : fs.read (joinpath dir s.latest_model_name) with _ | art
            · simp [ORTModel.optimize, hd, hr, hn, hh, ha] at hw
            · simp [ORTModel.optimize, hd, hr, hn, hh, ha,
                ORTModel.load_model, FS.read_write_self] at hw
              exact hw
  · intro w hw
    cases hst : qc.is_static
    · cases hg : env.gpu_available
      · rcases hd : s.model_save_dir with _ | dir
        · simp [ORTModel.quantize, hst, hg, hd] at hw
        · rcases ha : fs.read (joinpath dir s.latest_model_name) with _ | art
          · simp [ORTModel.quantize, hst, hg, hd, ha] at hw
          · simp [ORTModel.quantize, hst, hg, hd, ha, ORTModel.load_model,
              FS.read_write_self] at hw
            exact hw
      · simp [ORTModel.quantize, hst, hg] at hw
    · simp [ORTModel.quantize, hst] at hw

theorem fixed_output_paths_witness :
    Event.fileWritten optOutPath ∈
        (ORTModel.optimize env0 s0 optCfg0 "a" fs0).events ∧
      optOutPath = optOutPath :=
  ⟨by decide,
    (fixed_output_paths env0 s0 optCfg0 qCfg0 "a" "b" fs0).2.2.1 optOutPath
      (by decide)⟩

/-- C5.  For every accepted (non-static, CPU) quantization call that finds
its input artifact, the external quantizer is invoked with the per-channel
flag, mode, weight and activation numeric types and the include/exclude
node-name lists taken unchanged from the configuration, and with the
derived `ForceSymmetric` flag equal to the conjunction of the
activations-symmetric and weights-symmetric flags. -/
theorem quantizer_args_exact (env : Env) (s : ORTModelState)
    (qc : QuantizationConfig) (p dir : String) (fs : FS) (m : Artifact)
    (hst : qc.is_static = false) (hg : env.gpu_available = false)
    (hdir : s.model_save_dir = some dir)
    (hread : fs.read (joinpath dir s.latest_model_name) = some m) :
    Event.quantizerInvoked
        ⟨m, qc.is_static, qc.per_channel, qc.mode, qc.weights_dtype,
          qc.activations_dtype, qc.reduce_range, qc.nodes_to_quantize,
          qc.nodes_to_exclude,
          qc.operators_to_quantize.map QuantOperator.toName,
          qc.weights_symmetric, qc.activations_symmetric, false,
          qc.activations_symmetric && qc.weights_symmetric⟩ ∈
      (ORTModel.quantize env s qc p fs).events := by
  simp [ORTModel.quantize, hst, hg, hdir, hread, ORTModel.load_model,
    FS.read_write_self]

theorem quantizer_args_exact_witness :
    (qCfg0.is_static = false ∧ env0.gpu_available = false) ∧
    Event.quantizerInvoked
        ⟨artifactA, qCfg0.is_static, qCfg0.per_channel, qCfg0.mode,
          qCfg0.weights_dtype, qCfg0.activations_dtype, qCfg0.reduce_range,
          qCfg0.nodes_to_quantize, qCfg0.nodes_to_exclude,
          qCfg0.operators_to_quantize.map QuantOperator.toName,
          qCfg0.weights_symmetric, qCfg0.activations_symmetric, false,
          qCfg0.activations_symmetric && qCfg0.weights_symmetric⟩ ∈
      (ORTModel.quantize env0 s0 qCfg0 "p" fs0).events :=
  ⟨⟨by decide, by decide⟩,
    quantizer_args_exact env0 s0 qCfg0 "p" "/models/bert" fs0 artifactA
      (by decide) (by decide) (by decide) (by decide)⟩

/-- C8 (amended).  `optimize` never changes the caller's configuration
object except for its `model_type` field: every other field is unchanged
by every call, and whenever the call proceeds past the registry and
attribute lookups, `model_type` is overwritten with the registry's
optimizer-internal model-type tag (so the configuration is mutated, not
passed by value). -/
theorem optimize_config_mutation (env : Env) (s : ORTModelState)
    (ocfg : OptimizationConfig) (p : String) (fs : FS) :
    (ORTModel.optimize env s ocfg p fs).cfg.optimization_level =
      ocfg.optimization_level ∧
    (ORTModel.optimize env s ocfg p fs).cfg.optimize_for_gpu =
      ocfg.optimize_for_gpu ∧
    (ORTModel.optimize env s ocfg p fs).cfg.optimize_with_onnxruntime_only =
      ocfg.optimize_with_onnxruntime_only ∧
    (ORTModel.optimize env s ocfg p fs).cfg.fusion_toggles =
      ocfg.fusion_toggles ∧
    ((ORTModel.optimize env s ocfg p fs).cfg = ocfg ∨
      ∃ entry, lookupRegistry env.registry s.config.model_type = some entry ∧
        (ORTModel.optimize env s ocfg p fs).cfg =
          { ocfg with model_type := some entry.ort_type }) := by
  rcases hd : s.model_save_dir with _ | dir
  · simp [ORTModel.optimize, hd]
  · rcases hr : lookupRegistry env.registry s.config.model_type with _ | entry
    · simp [ORTModel.optimize, hd, hr]
    · rcases hn : s.config.getattr entry.num_heads_name with _ | nh
      · simp [ORTModel.optimize, hd, hr, hn]
      · rcases hh : s.config.getattr entry.hidden_size_name with _ | hsz
        · simp [ORTModel.optimize, hd, hr, hn, hh]
        · rcases ha : fs.read (joinpath dir s.latest_model_name) with _ | art
          · simp [ORTModel.optimize, hd, hr, hn, hh, ha]
          · simp [ORTModel.optimize, hd, hr, hn, hh, ha,
              ORTModel.load_model, FS.read_write_self]

/-- C8 counterexample: a concrete successful `optimize` call after which
the caller's configuration object differs from its value before the call
(`model_type` was overwritten), refuting "every field of the configuration
equals its value before the call". -/
theorem optimize_config_mutation_counterexample :
    (ORTModel.optimize env0 s0 optCfg0 "p" fs0).ret =
        RetVal.ok (ORTModel.optimize env0 s0 optCfg0 "p" fs0).state ∧
    optCfg0.model_type = none ∧
    (ORTModel.optimize env0 s0 optCfg0 "p" fs0).cfg.model_type = some "bert" ∧
    (ORTModel.optimize env0 s0 optCfg0 "p" fs0).cfg ≠ optCfg0 := by decide

/-- C6 (amended).  For every adapter whose session handle matches the
artifact currently on disk at `model_save_dir/latest_model_name`, saving
the current artifact to directory `D` under name `N` and then loading from
`D` with file name `N` yields a session handle with identical declared
input and output names. -/
theorem save_load_round_trip (env : Env) (s : ORTModelState) (fs : FS)
    (dir D N : String) (a : Artifact) (cfgd : PretrainedConfig) (oid : Nat)
    (hdir : s.model_save_dir = some dir)
    (hread : fs.read (joinpath dir s.latest_model_name) = some a)
    (hcoh : s.model.artifact = a)
    (hD : fs.isdir D = true) :
    ORTModel.save_pretrained s fs D (some N) =
      RetVal.ok (fs.write (joinpath D N) a) ∧
    ∃ st, ORTModel.from_pretrained env (fs.write (joinpath D N) a) D (some N)
          cfgd oid = RetVal.ok (st, fs.write (joinpath D N) a) ∧
      st.model.get_inputs = s.model.get_inputs ∧
      st.model.get_outputs = s.model.get_outputs := by
  have hD' : (fs.write (joinpath D N) a).isdir D = true := hD
  constructor
  · simp [ORTModel.save_pretrained, hdir, hread]
  · refine ⟨ORTModel.init oid
      ⟨a, if env.gpu_available then "CUDAExecutionProvider"
          else "CPUExecutionProvider"⟩ cfgd (some D) none, ?_, ?_, ?_⟩
    · simp [ORTModel.from_pretrained, hD', ORTModel.load_model,
        FS.read_write_self, ORTModel.init]
    · simp [ORTModel.init, InferenceSession.get_inputs, hcoh]
    · simp [ORTModel.init, InferenceSession.get_outputs, hcoh]

theorem save_load_round_trip_witness :
    s0.model.artifact = artifactA ∧
    (∃ st, ORTModel.from_pretrained env0
        (fs0.write (joinpath "/models/bert" "copy.onnx") artifactA)
        "/models/bert" (some "copy.onnx") cfg0 9 =
          RetVal.ok (st, fs0.write (joinpath "/models/bert" "copy.onnx")
            artifactA) ∧
      st.model.get_inputs = s0.model.get_inputs ∧
      st.model.get_outputs = s0.model.get_outputs) :=
  ⟨by decide,
    (save_load_round_trip env0 s0 fs0 "/models/bert" "/models/bert"
      "copy.onnx" artifactA cfg0 9 (by decide) (by decide) (by decide)
      (by decide)).2⟩

/-- C6 counterexample: an adapter loaded from a local directory with a
non-default file name has a session over `other.onnx` but bookkeeping
pointing at `model.onnx`; its save-then-load round trip reproduces the
wrong artifact, so the reloaded handle's declared output names differ from
the original handle's. -/
theorem save_load_round_trip_counterexample :
    ORTModel.from_pretrained env0 fsSkew "/repo" (some "other.onnx") cfg0 1 =
      RetVal.ok (c6State, fsSkew) ∧
    ORTModel.save_pretrained c6State fsSkew "/dst" (some "copy.onnx") =
      RetVal.ok fsSkew2 ∧
    ORTModel.from_pretrained env0 fsSkew2 "/dst" (some "copy.onnx") cfg0 2 =
      RetVal.ok (c6State2, fsSkew2) ∧
    c6State2.model.get_outputs ≠ c6State.model.get_outputs := by decide

/-- C7.  Constructing a task adapter from a handle whose declared outputs
include the required name succeeds (the name-to-position dict resolves it),
while an adapter over a handle lacking the required output name (here
`"logits"` for sequence classification) raises a `KeyError` at inference
time instead of returning data. -/
theorem adapter_output_name_check (env : Env) (base : ORTModelState)
    (i a : Tensor) (t : Option Tensor) :
    ("logits" ∈ base.model.get_outputs →
      ∃ idx, dictGet (TaskAdapter.init base).model_outputs "logits" =
        some idx) ∧
    ("logits" ∉ base.model.get_outputs →
      ORTModelForSequenceClassification.forward env (TaskAdapter.init base)
        (some i) (some a) t = RetVal.exn (ORTError.keyError "logits")) := by
  constructor
  · intro hmem
    apply dictGet_mem
    show "logits" ∈ (pyEnumDict base.model.get_outputs).map Prod.fst
    rw [pyEnumDict_fst]
    exact hmem
  · intro hmem
    have hnone :
        dictGet (TaskAdapter.init base).model_outputs "logits" = none := by
      apply dictGet_eq_none
      show "logits" ∉ (pyEnumDict base.model.get_outputs).map Prod.fst
      rw [pyEnumDict_fst]
      exact hmem
    simp [ORTModelForSequenceClassification.forward,
      TaskAdapter.forwardNamed, hnone]

theorem adapter_output_name_check_witness :
    ("logits" ∈ s0.model.get_outputs ∧
      ∃ idx, dictGet (TaskAdapter.init s0).model_outputs "logits" =
        some idx) ∧
    ("logits" ∉ sB.model.get_outputs ∧
      ORTModelForSequenceClassification.forward env0 (TaskAdapter.init sB)
        (some ⟨1⟩) (some ⟨2⟩) none = RetVal.exn (ORTError.keyError "logits")) :=
  ⟨⟨by decide, (adapter_output_name_check env0 s0 ⟨1⟩ ⟨2⟩ none).1 (by decide)⟩,
   ⟨by decide, (adapter_output_name_check env0 sB ⟨1⟩ ⟨2⟩ none).2 (by decide)⟩⟩

/-- C9.  Loading from a local directory with a caller-supplied file name
(different from the default) opens the session on the named file but
leaves `latest_model_name` at its default `model.onnx`; consequently the
current-artifact path is `model_save_dir/model.onnx` and a subsequent save
copies the artifact stored there, not the file the session was actually
loaded from. -/
theorem local_load_keeps_default_latest_name (env : Env) (fs : FS)
    (d N : String) (cfgd : PretrainedConfig) (oid : Nat) (a b : Artifact)
    (st : ORTModelState) (fs₂ : FS)
    (hdir : fs.isdir d = true)
    (hne : N ≠ ONNX_WEIGHTS_NAME)
    (hload : ORTModel.from_pretrained env fs d (some N) cfgd oid =
      RetVal.ok (st, fs₂))
    (hA : fs.read (joinpath d N) = some a)
    (hB : fs.read (joinpath d ONNX_WEIGHTS_NAME) = some b) :
    st.model.artifact = a ∧
    st.latest_model_name = ONNX_WEIGHTS_NAME ∧
    currentArtifactPath st = some (joinpath d ONNX_WEIGHTS_NAME) ∧
    ∀ D n, ORTModel.save_pretrained st fs D (some n) =
      RetVal.ok (fs.write (joinpath D n) b) := by
  simp only [ORTModel.from_pretrained, ONNX_WEIGHTS_NAME, Option.getD_some,
    hdir, if_true, ORTModel.load_model, hA, Option.map_some',
    Option.getD_none, ORTModel.init, RetVal.ok.injEq, Prod.mk.injEq] at hload
  obtain ⟨hst, hfs⟩ := hload
  subst hst
  refine ⟨rfl, by simp [ONNX_WEIGHTS_NAME], by simp [currentArtifactPath,
    ONNX_WEIGHTS_NAME], ?_⟩
  intro D n
  simp only [ONNX_WEIGHTS_NAME] at hB
  simp [ORTModel.save_pretrained, hB]

theorem local_load_keeps_default_latest_name_witness :
    c6State.model.artifact = artifactA ∧
    c6State.latest_model_name = ONNX_WEIGHTS_NAME ∧
    currentArtifactPath c6State = some (joinpath "/repo" ONNX_WEIGHTS_NAME) ∧
    ∀ D n, ORTModel.save_pretrained c6State fsSkew D (some n) =
      RetVal.ok (fsSkew.write (joinpath D n) artifactB) :=
  local_load_keeps_default_latest_name env0 fsSkew "/repo" "other.onnx" cfg0 1
    artifactA artifactB c6State fsSkew (by decide) (by decide) (by decide)
    (by decide) (by decide)

/-- C10.  Although the forward parameters are annotated optional, calling
forward with `input_ids` or `attention_mask` equal to `None` fails with
the attribute-access-on-`None` error rather than substituting a default;
`token_type_ids` equal to `None` is accepted, the engine input map then
holding exactly `input_ids` and `attention_mask`, and the call never
raises the `None`-attribute failure. -/
theorem forward_requires_ids_and_mask (env : Env) (st : TaskAdapterState)
    (i a : Tensor) (t : Option Tensor) :
    (∀ m, ORTModelForFeatureExtraction.forward env st none m t =
      RetVal.exn (ORTError.attributeError "cpu")) ∧
    ORTModelForFeatureExtraction.forward env st (some i) none t =
      RetVal.exn (ORTError.attributeError "cpu") ∧
    (∀ m, ORTModelForCausalLM.forward env st none m =
      RetVal.exn (ORTError.attributeError "cpu")) ∧
    ORTModelForCausalLM.forward env st (some i) none =
      RetVal.exn (ORTError.attributeError "cpu") ∧
    forwardInputsMap i a none =
      [("input_ids", Tensor.numpy i), ("attention_mask", Tensor.numpy a)] ∧
    ∀ msg, ORTModelForFeatureExtraction.forward env st (some i) (some a)
      none ≠ RetVal.exn (ORTError.attributeError msg) := by
  refine ⟨fun m => rfl, rfl, fun m => rfl, rfl, rfl, ?_⟩
  intro msg h
  simp only [ORTModelForFeatureExtraction.forward,
    TaskAdapter.forwardNamed] at h
  rcases hk : dictGet st.model_outputs "last_hidden_state" with _ | idx
  · simp [hk] at h
  · rcases ho : (env.run st.base.model.artifact
        (forwardInputsMap i a none))[idx]? with _ | arr
    · simp [hk, ho] at h
    · simp [hk, ho] at h

theorem forward_requires_ids_and_mask_witness :
    ORTModelForFeatureExtraction.forward env0 (TaskAdapter.init s0) none
        (some ⟨2⟩) none = RetVal.exn (ORTError.attributeError "cpu") ∧
    ORTModelForFeatureExtraction.forward env0 (TaskAdapter.init s0)
        (some ⟨1⟩) (some ⟨2⟩) none ≠
      RetVal.exn (ORTError.attributeError "cpu") :=
  ⟨(forward_requires_ids_and_mask env0 (TaskAdapter.init s0) ⟨1⟩ ⟨2⟩ none).1
      (some ⟨2⟩),
   (forward_requires_ids_and_mask env0 (TaskAdapter.init s0) ⟨1⟩ ⟨2⟩
      none).2.2.2.2.2 "cpu"⟩
